import Mathlib

/-!
Verification of the self-healing agent's remediation control loop.

The Python sources are shallowly embedded below: dictionaries with optional
numeric fields become structures of `Option ℚ` fields, Python truthiness is
made explicit, the MongoDB-backed collections (catalog, ledger, incidents)
become explicit list-valued inputs and outputs, and wall-clock timestamps
become integer second counts supplied as parameters.  Each definition cites
the function it embeds.
-/

namespace SelfHealing

/-- Issue taxonomy from `src/models/schemas.py` (`IssueType`). -/
inductive IssueType where
  | SERVICE_DOWN
  | MEMORY_PRESSURE
  | HIGH_LATENCY
  | HIGH_CPU
  | HIGH_ERROR_RATE
  | CUSTOM
deriving DecidableEq, Repr

/-- The `.value` of an `IssueType` member (it is a `str` enum). -/
def IssueType.value : IssueType → String
  | .SERVICE_DOWN => "SERVICE_DOWN"
  | .MEMORY_PRESSURE => "MEMORY_PRESSURE"
  | .HIGH_LATENCY => "HIGH_LATENCY"
  | .HIGH_CPU => "HIGH_CPU"
  | .HIGH_ERROR_RATE => "HIGH_ERROR_RATE"
  | .CUSTOM => "CUSTOM"

/-- Health taxonomy from `src/models/schemas.py` (`HealthStatus`). -/
inductive HealthStatus where
  | UP
  | DOWN
  | DEGRADED
deriving DecidableEq, Repr

/-- Python truthiness of an optional numeric dict entry: a missing key
(`None`) and the number `0` are falsy, every other number is truthy. -/
def truthyQ : Option ℚ → Bool
  | none => false
  | some x => decide (x ≠ 0)

/-- A metrics dictionary as passed around by `learning_engine.py` and
`run.py` (`before_metrics` / `after_metrics`): all keys optional, `health`
a status string. -/
structure PyMetrics where
  health : Option String := none
  memory : Option ℚ := none
  cpu : Option ℚ := none
  latency : Option ℚ := none
  error_rate : Option ℚ := none
deriving DecidableEq, Repr

/-- The executor result dict as consulted by
`LearningEngine._determine_success` (`result.get("success", False)`). -/
structure ExecResult where
  success : Bool
deriving DecidableEq, Repr

/-- The evaluator fallback `after.get("health") == "UP"`. -/
def healthUp (m : PyMetrics) : Bool := m.health == some "UP"

/-- Embedding of `LearningEngine._determine_success`
(`src/agent/learning_engine.py` lines 260-285).  Each issue-specific branch
fires only when both of its metric fields are truthy (present and nonzero);
otherwise control falls through to the health fallback.  Note the source has
no `HIGH_CPU` branch and no `CUSTOM` branch: both take the fallback. -/
def determineSuccess (issue : IssueType) (before after : PyMetrics)
    (result : ExecResult) : Bool :=
  if !result.success then false
  else
    match issue with
    | .SERVICE_DOWN => after.health == some "UP"
    | .MEMORY_PRESSURE =>
        if truthyQ before.memory && truthyQ after.memory then
          decide (after.memory.getD 0 < before.memory.getD 0 * 0.8)
        else healthUp after
    | .HIGH_LATENCY =>
        if truthyQ before.latency && truthyQ after.latency then
          decide (after.latency.getD 0 < before.latency.getD 0 * 0.7)
        else healthUp after
    | .HIGH_ERROR_RATE =>
        if truthyQ before.error_rate && truthyQ after.error_rate then
          decide (after.error_rate.getD 0 < before.error_rate.getD 0 * 0.5)
        else healthUp after
    | .HIGH_CPU => healthUp after
    | .CUSTOM => healthUp after

/-- Embedding of `evaluate_action` (`run.py` lines 369-400).  A missing or
empty metrics dict is `none` (both are falsy in `if not before_metrics`);
issue names are the strings `run.py` compares against. -/
def runEvaluateAction : Option PyMetrics → Option PyMetrics → String → Bool
  | some b, some a, issue =>
      if b.health == some "DOWN" && a.health == some "UP" then true
      else if a.health == some "DOWN" then false
      else if issue == "MEMORY_PRESSURE" && truthyQ b.memory && truthyQ a.memory then
        decide (a.memory.getD 0 < b.memory.getD 0 * 0.9)
      else if issue == "HIGH_LATENCY" && truthyQ b.latency && truthyQ a.latency then
        decide (a.latency.getD 0 < b.latency.getD 0 * 0.8)
      else if issue == "HIGH_ERROR_RATE" && truthyQ b.error_rate && truthyQ a.error_rate then
        decide (a.error_rate.getD 0 < b.error_rate.getD 0 * 0.7)
      else if issue == "HIGH_CPU" && truthyQ b.cpu && truthyQ a.cpu then
        decide (a.cpu.getD 0 < b.cpu.getD 0 * 0.8)
      else a.health == some "UP"
  | _, _, _ => false

example :
    determineSuccess .MEMORY_PRESSURE
      { health := some "UP", memory := some 95 }
      { health := some "UP", memory := some 70 }
      { success := true } = true := by
  simp only [determineSuccess, truthyQ, healthUp]
  norm_num

example :
    determineSuccess .HIGH_ERROR_RATE
      { health := some "UP", error_rate := some 0.4 }
      { health := some "UP", error_rate := some 0.25 }
      { success := true } = false := by
  simp only [determineSuccess, truthyQ, healthUp]
  norm_num

/-- Helper for the `run.py` evaluator: when every issue-specific guard is
false, the result is exactly the health fallback `after.health == "UP"`,
because the two health short-circuits agree with the fallback. -/
lemma runEvaluateAction_fallback (b a : PyMetrics) (s : String)
    (hm : (s == "MEMORY_PRESSURE" && truthyQ b.memory && truthyQ a.memory) = false)
    (hl : (s == "HIGH_LATENCY" && truthyQ b.latency && truthyQ a.latency) = false)
    (he : (s == "HIGH_ERROR_RATE" && truthyQ b.error_rate && truthyQ a.error_rate) = false)
    (hc : (s == "HIGH_CPU" && truthyQ b.cpu && truthyQ a.cpu) = false) :
    runEvaluateAction (some b) (some a) s = (a.health == some "UP") := by
  simp only [runEvaluateAction]
  by_cases h1 : (b.health == some "DOWN" && a.health == some "UP") = true
  · rw [if_pos h1]
    have h2 := h1
    simp only [Bool.and_eq_true] at h2
    exact h2.2.symm
  · rw [if_neg h1]
    by_cases h2 : (a.health == some "DOWN") = true
    · rw [if_pos h2]
      have h3 : a.health = some "DOWN" := by simpa using h2
      rw [h3]
      decide
    · rw [if_neg h2]
      rw [if_neg (by rw [hm]; exact Bool.false_ne_true)]
      rw [if_neg (by rw [hl]; exact Bool.false_ne_true)]
      rw [if_neg (by rw [he]; exact Bool.false_ne_true)]
      rw [if_neg (by rw [hc]; exact Bool.false_ne_true)]

/-- Claim C4 counterexample: for HIGH_CPU with a successful executor result
and both cpu values present (100 before, 90 after), the LearningEngine
verdict is `true` although the claimed ratio rule
`after.cpu < before.cpu * 0.8` fails (90 is not below 80). -/
theorem C4_counterexample :
    determineSuccess .HIGH_CPU
      { health := some "UP", cpu := some 100 }
      { health := some "UP", cpu := some 90 }
      { success := true } = true
    ∧ ¬ ((90 : ℚ) < 100 * 0.8) := by
  constructor
  · simp [determineSuccess, healthUp]
  · norm_num

/-- Claim C4 (amended): `LearningEngine._determine_success` has no HIGH_CPU
rule at all — with a successful executor result the HIGH_CPU verdict is
exactly the health fallback `after.health == "UP"`; the cpu ratio
`after.cpu < before.cpu * 0.8` exists only in `run.py`'s `evaluate_action`,
where it applies once neither health short-circuit fires and both cpu
values are truthy. -/
theorem C4_amended :
    (∀ (before after : PyMetrics) (r : ExecResult), r.success = true →
        determineSuccess .HIGH_CPU before after r = healthUp after)
    ∧ (∀ b a : PyMetrics,
        (b.health == some "DOWN" && a.health == some "UP") = false →
        (a.health == some "DOWN") = false →
        truthyQ b.cpu = true → truthyQ a.cpu = true →
        runEvaluateAction (some b) (some a) "HIGH_CPU"
          = decide (a.cpu.getD 0 < b.cpu.getD 0 * 0.8)) := by
  constructor
  · intro before after r h
    simp [determineSuccess, h]
  · intro b a h1 h2 h3 h4
    unfold runEvaluateAction
    simp [h1, h2, h3, h4]

/-- Claim C4 amended, witnessed at concrete inputs. -/
theorem C4_amended_witness :
    determineSuccess .HIGH_CPU
      { health := some "UP", cpu := some 100 }
      { health := some "UP", cpu := some 90 }
      { success := true }
      = healthUp { health := some "UP", cpu := some 90 }
    ∧ runEvaluateAction
        (some { health := some "UP", cpu := some 100 })
        (some { health := some "UP", cpu := some 90 })
        "HIGH_CPU"
      = decide ((90 : ℚ) < 100 * 0.8) := by
  constructor
  · exact C4_amended.1 _ _ _ rfl
  · exact C4_amended.2
      { health := some "UP", cpu := some 100 }
      { health := some "UP", cpu := some 90 }
      (by decide) (by decide) (by norm_num [truthyQ]) (by norm_num [truthyQ])

/-- Claim C5 counterexample: for HIGH_LATENCY with a successful executor
result, latency 100 before and 75 after, the LearningEngine verdict is
`false` although the claimed uniform ratio rule
`after.latency < before.latency * 0.8` holds (75 < 80): the 0.8 ratio is
not applied in this code path (it uses 0.7). -/
theorem C5_counterexample :
    determineSuccess .HIGH_LATENCY
      { health := some "UP", latency := some 100 }
      { health := some "UP", latency := some 75 }
      { success := true } = false
    ∧ ((75 : ℚ) < 100 * 0.8) := by
  constructor
  · simp only [determineSuccess, truthyQ, healthUp]
    norm_num
  · norm_num

/-- Claim C5 (amended): the HIGH_LATENCY improvement ratio is not applied
consistently — `LearningEngine._determine_success` uses
`after.latency < before.latency * 0.7` while `run.py`'s `evaluate_action`
uses `after.latency < before.latency * 0.8` (each once its guards hold). -/
theorem C5_amended :
    (∀ (before after : PyMetrics) (r : ExecResult), r.success = true →
        truthyQ before.latency = true → truthyQ after.latency = true →
        determineSuccess .HIGH_LATENCY before after r
          = decide (after.latency.getD 0 < before.latency.getD 0 * 0.7))
    ∧ (∀ b a : PyMetrics,
        (b.health == some "DOWN" && a.health == some "UP") = false →
        (a.health == some "DOWN") = false →
        truthyQ b.latency = true → truthyQ a.latency = true →
        runEvaluateAction (some b) (some a) "HIGH_LATENCY"
          = decide (a.latency.getD 0 < b.latency.getD 0 * 0.8)) := by
  constructor
  · intro before after r h h1 h2
    simp [determineSuccess, h, h1, h2]
  · intro b a h1 h2 h3 h4
    unfold runEvaluateAction
    simp [h1, h2, h3, h4]

/-- Claim C5 amended, witnessed at concrete inputs. -/
theorem C5_amended_witness :
    determineSuccess .HIGH_LATENCY
      { health := some "UP", latency := some 100 }
      { health := some "UP", latency := some 75 }
      { success := true }
      = decide ((75 : ℚ) < 100 * 0.7)
    ∧ runEvaluateAction
        (some { health := some "UP", latency := some 100 })
        (some { health := some "UP", latency := some 75 })
        "HIGH_LATENCY"
      = decide ((75 : ℚ) < 100 * 0.8) := by
  constructor
  · exact C5_amended.1 _ _ _ rfl (by norm_num [truthyQ]) (by norm_num [truthyQ])
  · exact C5_amended.2
      { health := some "UP", latency := some 100 }
      { health := some "UP", latency := some 75 }
      (by decide) (by decide) (by norm_num [truthyQ]) (by norm_num [truthyQ])

/-- Claim C10: for MEMORY_PRESSURE, HIGH_LATENCY and HIGH_ERROR_RATE, when
the issue's relevant metric is absent or 0 (Python-falsy) in either
snapshot, both evaluators ignore the ratio rule and return the health
fallback: `LearningEngine._determine_success` (given a successful executor
result) and `run.py`'s `evaluate_action` each reduce to
`after.health == "UP"`. -/
theorem C10_falsy_metric_health_fallback :
    (∀ (before after : PyMetrics) (r : ExecResult), r.success = true →
      ((truthyQ before.memory = false ∨ truthyQ after.memory = false) →
        determineSuccess .MEMORY_PRESSURE before after r = healthUp after)
      ∧ ((truthyQ before.latency = false ∨ truthyQ after.latency = false) →
        determineSuccess .HIGH_LATENCY before after r = healthUp after)
      ∧ ((truthyQ before.error_rate = false ∨ truthyQ after.error_rate = false) →
        determineSuccess .HIGH_ERROR_RATE before after r = healthUp after))
    ∧ (∀ b a : PyMetrics,
      ((truthyQ b.memory = false ∨ truthyQ a.memory = false) →
        runEvaluateAction (some b) (some a) "MEMORY_PRESSURE" = (a.health == some "UP"))
      ∧ ((truthyQ b.latency = false ∨ truthyQ a.latency = false) →
        runEvaluateAction (some b) (some a) "HIGH_LATENCY" = (a.health == some "UP"))
      ∧ ((truthyQ b.error_rate = false ∨ truthyQ a.error_rate = false) →
        runEvaluateAction (some b) (some a) "HIGH_ERROR_RATE" = (a.health == some "UP"))) := by
  constructor
  · intro before after r h
    refine ⟨fun h1 => ?_, fun h2 => ?_, fun h3 => ?_⟩
    · rcases h1 with h1 | h1 <;> simp [determineSuccess, h, h1]
    · rcases h2 with h2 | h2 <;> simp [determineSuccess, h, h2]
    · rcases h3 with h3 | h3 <;> simp [determineSuccess, h, h3]
  · intro b a
    refine ⟨fun h1 => ?_, fun h2 => ?_, fun h3 => ?_⟩
    · exact runEvaluateAction_fallback b a _
        (by rcases h1 with h1 | h1 <;> simp [h1]) (by simp) (by simp) (by simp)
    · exact runEvaluateAction_fallback b a _
        (by simp) (by rcases h2 with h2 | h2 <;> simp [h2]) (by simp) (by simp)
    · exact runEvaluateAction_fallback b a _
        (by simp) (by simp) (by rcases h3 with h3 | h3 <;> simp [h3]) (by simp)

/-- Claim C10, witnessed at a concrete input: an action that drives memory
to exactly 0 under MEMORY_PRESSURE is judged solely by health. -/
theorem C10_falsy_metric_health_fallback_witness :
    determineSuccess .MEMORY_PRESSURE
      { health := some "UP", memory := some 95 }
      { health := some "UP", memory := some 0 }
      { success := true }
      = healthUp { health := some "UP", memory := some 0 }
    ∧ runEvaluateAction
        (some { health := some "UP", memory := some 95 })
        (some { health := some "UP", memory := some 0 })
        "MEMORY_PRESSURE"
      = ((some "UP" : Option String) == some "UP") := by
  constructor
  · exact (C10_falsy_metric_health_fallback.1
      { health := some "UP", memory := some 95 }
      { health := some "UP", memory := some 0 }
      { success := true } rfl).1 (Or.inr (by norm_num [truthyQ]))
  · exact (C10_falsy_metric_health_fallback.2
      { health := some "UP", memory := some 95 }
      { health := some "UP", memory := some 0 }).1 (Or.inr (by norm_num [truthyQ]))

/-! ## ConfidenceLearner (`LearningEngine.update_confidence` and
`LearningEngine.recalculate_all_confidence`) -/

/-- One `agent_memory` ledger document, restricted to the fields the
confidence queries filter on: `issue`, `action`, `success`, `timestamp`
(seconds). -/
structure MemoryRec where
  issue : String
  action : String
  success : Bool
  timestamp : ℤ
deriving DecidableEq, Repr

/-- Embedding of `LearningEngine.update_confidence`
(`src/agent/learning_engine.py` lines 66-125): the confidence value written
to the catalog entry for `(issue, action)`, whose stored confidence is
`old` (the code's `record.get("confidence", 1.0)`).  `total` and `succ` are
the two `count_documents` queries over the whole `agent_memory` ledger. -/
def updateConfidence (issue act : String) (old : ℚ) (ledger : List MemoryRec) : ℚ :=
  let total := ledger.countP (fun r => r.issue == issue && r.action == act)
  let succ := ledger.countP (fun r => r.issue == issue && r.action == act && r.success)
  if 0 < total then 0.7 * old + 0.3 * ((succ : ℚ) / (total : ℚ))
  else old

/-- Embedding of the per-pair body of
`LearningEngine.recalculate_all_confidence` (learning_engine.py 127-173):
`some c` when a confidence `c` is written for the pair, `none` when
`total_attempts = 0` and nothing is written.  The recency query keeps
records with `timestamp >= now - 7 days` (604800 seconds). -/
def recalcConfidence (issue act : String) (now : ℤ) (ledger : List MemoryRec) : Option ℚ :=
  let total := ledger.countP (fun r => r.issue == issue && r.action == act)
  let succ := ledger.countP (fun r => r.issue == issue && r.action == act && r.success)
  if 0 < total then
    let conf : ℚ := (succ : ℚ) / (total : ℚ)
    let recent := ledger.countP (fun r =>
      r.issue == issue && r.action == act && decide (now - 604800 ≤ r.timestamp))
    if (recent : ℚ) < (total : ℚ) * 0.5 then some (conf * 0.9) else some conf
  else none

/-- Splitting a `countP` along a second test: used to relate the code's
`total` count to the success and failure counts of a ledger. -/
lemma countP_split (l : List MemoryRec) (p q : MemoryRec → Bool) :
    l.countP p
      = l.countP (fun r => p r && q r) + l.countP (fun r => p r && !q r) := by
  induction l with
  | nil => simp
  | cons x xs ih =>
      simp only [List.countP_cons]
      cases hp : p x <;> cases hq : q x <;> simp [hp, hq] <;> omega

/-- A `countP` of a conjunction is at most the `countP` of its left test. -/
lemma countP_and_le (l : List MemoryRec) (p q : MemoryRec → Bool) :
    l.countP (fun r => p r && q r) ≤ l.countP p := by
  induction l with
  | nil => simp
  | cons x xs ih =>
      simp only [List.countP_cons]
      cases hp : p x <;> cases hq : q x <;> simp [hp, hq] <;> omega

/-- Claim C6: for a `(issue, action)` pair whose ledger holds `N` success
records and `M` failure records with `N + M > 0`,
`LearningEngine.update_confidence` computes `raw = N / (N + M)` over the
entire ledger and writes `0.7 * old + 0.3 * raw` to the catalog entry. -/
theorem C6_confidence_update (issue act : String) (old : ℚ) (ledger : List MemoryRec)
    (N M : ℕ)
    (hN : N = ledger.countP (fun r => r.issue == issue && r.action == act && r.success))
    (hM : M = ledger.countP (fun r => r.issue == issue && r.action == act && !r.success))
    (hpos : 0 < N + M) :
    updateConfidence issue act old ledger
      = 0.7 * old + 0.3 * ((N : ℚ) / ((N : ℚ) + (M : ℚ))) := by
  have htot : ledger.countP (fun r => r.issue == issue && r.action == act) = N + M := by
    rw [hN, hM]
    exact countP_split ledger _ (fun r => r.success)
  unfold updateConfidence
  rw [htot, ← hN, if_pos hpos]
  push_cast
  ring

/-- Claim C6, witnessed on a concrete three-record ledger (1 success,
2 failures, prior confidence 1): the written value is
`0.7 * 1 + 0.3 * (1 / 3)`. -/
theorem C6_confidence_update_witness :
    updateConfidence "SERVICE_DOWN" "restart" 1
      [⟨"SERVICE_DOWN", "restart", true, 0⟩,
       ⟨"SERVICE_DOWN", "restart", false, 10⟩,
       ⟨"SERVICE_DOWN", "restart", false, 20⟩]
      = 0.7 * 1 + 0.3 * ((1 : ℚ) / ((1 : ℚ) + (2 : ℚ))) :=
  C6_confidence_update "SERVICE_DOWN" "restart" 1
    [⟨"SERVICE_DOWN", "restart", true, 0⟩,
     ⟨"SERVICE_DOWN", "restart", false, 10⟩,
     ⟨"SERVICE_DOWN", "restart", false, 20⟩]
    1 2 (by decide) (by decide) (by decide)

/-- Claim C7: every confidence value written by the learner stays in
`[0, 1]`: the smoothed per-outcome update (given a prior stored confidence
in `[0, 1]`) and the periodic full recomputation with staleness decay (for
any write it performs). -/
theorem C7_confidence_bounds :
    (∀ (issue act : String) (old : ℚ) (ledger : List MemoryRec),
        0 ≤ old → old ≤ 1 →
        0 ≤ updateConfidence issue act old ledger
          ∧ updateConfidence issue act old ledger ≤ 1)
    ∧ (∀ (issue act : String) (now : ℤ) (ledger : List MemoryRec) (c : ℚ),
        recalcConfidence issue act now ledger = some c → 0 ≤ c ∧ c ≤ 1) := by
  have hfrac : ∀ (issue act : String) (ledger : List MemoryRec),
      0 < ledger.countP (fun r => r.issue == issue && r.action == act) →
      0 ≤ ((ledger.countP (fun r => r.issue == issue && r.action == act && r.success) : ℚ)
            / (ledger.countP (fun r => r.issue == issue && r.action == act) : ℚ))
        ∧ ((ledger.countP (fun r => r.issue == issue && r.action == act && r.success) : ℚ)
            / (ledger.countP (fun r => r.issue == issue && r.action == act) : ℚ)) ≤ 1 := by
    intro issue act ledger hpos
    have hle := countP_and_le ledger
      (fun r => r.issue == issue && r.action == act) (fun r => r.success)
    have hle' : ledger.countP (fun r => (r.issue == issue && r.action == act) && r.success)
        = ledger.countP (fun r => r.issue == issue && r.action == act && r.success) := by
      simp [Bool.and_assoc]
    rw [hle'] at hle
    have htotQ : (0 : ℚ) < (ledger.countP (fun r => r.issue == issue && r.action == act) : ℚ) := by
      exact_mod_cast hpos
    constructor
    · positivity
    · rw [div_le_one htotQ]
      exact_mod_cast hle
  constructor
  · intro issue act old ledger h0 h1
    unfold updateConfidence
    by_cases hpos : 0 < ledger.countP (fun r => r.issue == issue && r.action == act)
    · rw [if_pos hpos]
      obtain ⟨hr0, hr1⟩ := hfrac issue act ledger hpos
      constructor <;> nlinarith
    · rw [if_neg hpos]
      exact ⟨h0, h1⟩
  · intro issue act now ledger c hc
    unfold recalcConfidence at hc
    by_cases hpos : 0 < ledger.countP (fun r => r.issue == issue && r.action == act)
    · rw [if_pos hpos] at hc
      obtain ⟨hr0, hr1⟩ := hfrac issue act ledger hpos
      by_cases hrec : ((ledger.countP (fun r =>
            r.issue == issue && r.action == act && decide (now - 604800 ≤ r.timestamp))) : ℚ)
          < (ledger.countP (fun r => r.issue == issue && r.action == act) : ℚ) * 0.5
      · rw [if_pos hrec] at hc
        obtain rfl : _ * (0.9 : ℚ) = c := Option.some_injective _ hc
        constructor <;> nlinarith
      · rw [if_neg hrec] at hc
        obtain rfl : _ = c := Option.some_injective _ hc
        exact ⟨hr0, hr1⟩
    · rw [if_neg hpos] at hc
      exact absurd hc (by simp)

/-- Claim C7, witnessed on concrete inputs for both update paths. -/
theorem C7_confidence_bounds_witness :
    (0 ≤ updateConfidence "HIGH_CPU" "scale_up" 0.8 [⟨"HIGH_CPU", "scale_up", false, 0⟩]
      ∧ updateConfidence "HIGH_CPU" "scale_up" 0.8 [⟨"HIGH_CPU", "scale_up", false, 0⟩] ≤ 1)
    ∧ (0 ≤ (1 : ℚ) * 0.9 ∧ (1 : ℚ) * 0.9 ≤ 1) := by
  constructor
  · exact C7_confidence_bounds.1 "HIGH_CPU" "scale_up" 0.8
      [⟨"HIGH_CPU", "scale_up", false, 0⟩] (by norm_num) (by norm_num)
  · exact C7_confidence_bounds.2 "HIGH_CPU" "scale_up" 1000000
      [⟨"HIGH_CPU", "scale_up", true, 0⟩] ((1 : ℚ) * 0.9)
      (by norm_num [recalcConfidence])

/-! ## DecisionEngine (`decision_engine.py`) and run.py `decide_action` -/

/-- A `fix_catalog` document, restricted to the fields the decision logic
reads. -/
structure CatalogEntry where
  issue : String
  action : String
  auto : Bool
  confidence : ℚ
deriving DecidableEq, Repr

/-- An entry of `DecisionEngine.action_history` (per `issue_action` key). -/
structure ActionHist where
  successes : ℕ
  failures : ℕ
  last_failure : Option ℤ
deriving DecidableEq, Repr

/-- Dict lookup `self.action_history.get(key)`. -/
def lookupHist (h : List (String × ActionHist)) (k : String) : Option ActionHist :=
  (h.find? (fun p => p.1 == k)).map Prod.snd

/-- Stable descending insertion by confidence; models the Mongo
`sort("confidence", -1)` of the catalog query. -/
def insertDesc (e : CatalogEntry) : List CatalogEntry → List CatalogEntry
  | [] => [e]
  | x :: xs => if x.confidence < e.confidence then e :: x :: xs else x :: insertDesc e xs

/-- Sort a catalog query result by confidence, descending. -/
def sortByConfDesc (l : List CatalogEntry) : List CatalogEntry := l.foldr insertDesc []

/-- The catalog query of `DecisionEngine.decide_action` (lines 28-33):
matching issue, `auto=true`, confidence strictly above the 0.3 minimum,
sorted descending by confidence. -/
def availableActions (catalog : List CatalogEntry) (issue : IssueType) : List CatalogEntry :=
  sortByConfDesc (catalog.filter (fun e =>
    e.issue == issue.value && e.auto && decide ((0.3 : ℚ) < e.confidence)))

/-- The recent-failure filter of `DecisionEngine.decide_action`
(lines 42-54): an entry is kept unless its `(issue, action)` history shows
more than 2 failures with a last failure less than 300 seconds ago. -/
def cooldownKeep (issue : IssueType) (history : List (String × ActionHist)) (now : ℤ)
    (e : CatalogEntry) : Bool :=
  match lookupHist history (issue.value ++ "_" ++ e.action) with
  | none => true
  | some h =>
      if 2 < h.failures then
        match h.last_failure with
        | some t => !(decide (now - t < 300))
        | none => true
      else true

/-- Python `max(actions, key=confidence)`: the first entry of maximal
confidence (later entries replace only on strictly greater confidence). -/
def pyMaxByConf : List CatalogEntry → Option CatalogEntry
  | [] => none
  | x :: xs => some (xs.foldl (fun best a => if best.confidence < a.confidence then a else best) x)

/-- Embedding of `DecisionEngine._apply_decision_strategy` (lines 77-102).
`recurring` is the oracle for `_is_recurring_issue` (a DB count), `explore`
the outcome of `random.random() < 0.1` and `pick` the index drawn by
`random.choice`; the SERVICE_DOWN branch returns before either random draw
is consulted. -/
def applyDecisionStrategy (actions : List CatalogEntry) (issue : IssueType)
    (recurring explore : Bool) (pick : ℕ) : Option CatalogEntry :=
  match actions with
  | [] => none
  | a :: rest =>
      if rest.isEmpty then some a
      else if issue == IssueType.SERVICE_DOWN then pyMaxByConf (a :: rest)
      else if (issue == IssueType.MEMORY_PRESSURE || issue == IssueType.HIGH_CPU)
          && recurring then
        match (a :: rest).filter (fun x => x.action == "scale_up" || x.action == "restart") with
        | b :: _ => some b
        | [] =>
            if explore then (a :: rest).get? pick else pyMaxByConf (a :: rest)
      else
        if explore then (a :: rest).get? pick else pyMaxByConf (a :: rest)

/-- Embedding of the non-cached path of `DecisionEngine.decide_action`
(decision_engine.py 16-75): query the catalog, apply the recent-failure
filter, then the strategy.  (`_get_recent_actions` is computed by the source
but never used.) -/
def decideActionFresh (catalog : List CatalogEntry) (history : List (String × ActionHist))
    (now : ℤ) (issue : IssueType) (recurring explore : Bool) (pick : ℕ) :
    Option CatalogEntry :=
  let available := availableActions catalog issue
  if available.isEmpty then none
  else
    let filtered := available.filter (cooldownKeep issue history now)
    if filtered.isEmpty then none
    else applyDecisionStrategy filtered issue recurring explore pick

/-- A `decision_cache` entry for the `(issue, service)` key. -/
structure CachedDecision where
  decision : CatalogEntry
  timestamp : ℤ
deriving DecidableEq, Repr

/-- Embedding of `DecisionEngine.decide_action` including its 60-second
cache shortcut; `cache` is the `decision_cache` entry for this
`(issue, service)` key, if any. -/
def decideAction (catalog : List CatalogEntry) (history : List (String × ActionHist))
    (cache : Option CachedDecision) (now : ℤ) (issue : IssueType)
    (recurring explore : Bool) (pick : ℕ) : Option CatalogEntry :=
  match cache with
  | some c =>
      if now - c.timestamp < 60 then some c.decision
      else decideActionFresh catalog history now issue recurring explore pick
  | none => decideActionFresh catalog history now issue recurring explore pick

/-- Embedding of `decide_action` (`run.py` lines 255-297).
`recentFailures` is the result of the `memory_col.count_documents` cooldown
query (failures for `(service, issue, top action)` within the last hour);
`hasService` is whether a `service_id` was passed. -/
def runDecideAction (catalog : List CatalogEntry) (issue : String)
    (hasService : Bool) (recentFailures : ℕ) : Option CatalogEntry :=
  let records := sortByConfDesc (catalog.filter (fun e => e.issue == issue && e.auto))
  if records.isEmpty then none
  else
    match records.filter (fun e => decide ((0.3 : ℚ) < e.confidence)) with
    | [] => none
    | b :: rest =>
        if hasService && decide (2 ≤ recentFailures) then
          match rest with
          | b2 :: _ => some b2
          | [] => some b
        else some b

/-- Specification of `pyMaxByConf`: it returns a member of maximal
confidence. -/
lemma pyMaxByConf_spec (l : List CatalogEntry) (m : CatalogEntry)
    (h : pyMaxByConf l = some m) :
    m ∈ l ∧ ∀ e ∈ l, e.confidence ≤ m.confidence := by
  match l with
  | [] => simp [pyMaxByConf] at h
  | x :: xs =>
      simp only [pyMaxByConf, Option.some_inj] at h
      subst h
      induction xs generalizing x with
      | nil => simp
      | cons y ys ih =>
          simp only [List.foldl_cons]
          rcases ih (if x.confidence < y.confidence then y else x) with ⟨hmem, hbound⟩
          constructor
          · rcases List.mem_cons.mp hmem with h | h
            · rw [h]
              by_cases hcmp : x.confidence < y.confidence <;> simp [hcmp]
            · simp [List.mem_cons, h]
          · intro e he
            rcases List.mem_cons.mp he with he | he
            · subst he
              refine le_trans ?_ (hbound _ (List.mem_cons_self _ _))
              by_cases hcmp : e.confidence < y.confidence
              · simp [hcmp, le_of_lt hcmp]
              · simp [hcmp]
            · rcases List.mem_cons.mp he with he | he
              · subst he
                refine le_trans ?_ (hbound _ (List.mem_cons_self _ _))
                by_cases hcmp : x.confidence < e.confidence
                · simp [hcmp]
                · simp [hcmp, le_of_not_lt hcmp]
              · exact hbound _ (List.mem_cons_of_mem _ he)

/-- Claim C2 counterexample: SERVICE_DOWN with two eligible entries
(restart at confidence 0.9, scale_up at 0.5) where the top entry has 3
recorded failures, the last one 100 seconds ago.  The cooldown filter
removes the top candidate even for SERVICE_DOWN, and `decide_action`
returns the lower-confidence entry. -/
theorem C2_counterexample :
    decideAction
      [⟨"SERVICE_DOWN", "restart", true, 0.9⟩, ⟨"SERVICE_DOWN", "scale_up", true, 0.5⟩]
      [("SERVICE_DOWN_restart", ⟨0, 3, some 1000⟩)]
      none 1100 .SERVICE_DOWN false false 0
      = some ⟨"SERVICE_DOWN", "scale_up", true, 0.5⟩
    ∧ (⟨"SERVICE_DOWN", "restart", true, 0.9⟩ : CatalogEntry) ∈
        availableActions
          [⟨"SERVICE_DOWN", "restart", true, 0.9⟩, ⟨"SERVICE_DOWN", "scale_up", true, 0.5⟩]
          .SERVICE_DOWN
    ∧ ((0.5 : ℚ) < 0.9) := by
  refine ⟨?_, ?_, by norm_num⟩
  · norm_num [decideAction, decideActionFresh, availableActions, sortByConfDesc,
      insertDesc, cooldownKeep, lookupHist, applyDecisionStrategy, pyMaxByConf,
      IssueType.value, List.filter, List.find?, List.isEmpty,
      show "SERVICE_DOWN" ++ "_" ++ "restart" = "SERVICE_DOWN_restart" from rfl,
      show "SERVICE_DOWN" ++ "_" ++ "scale_up" = "SERVICE_DOWN_scale_up" from rfl,
      show ("SERVICE_DOWN_restart" == "SERVICE_DOWN_scale_up") = false from rfl]
  · norm_num [availableActions, sortByConfDesc, insertDesc, IssueType.value, List.filter]

/-- Claim C2 (amended): the cooldown filter applies to SERVICE_DOWN exactly
as to any other issue — entries with more than 2 recorded failures whose
last failure is under 300 seconds old are removed before selection — and
only among the surviving candidates does `DecisionEngine.decide_action`
return one of maximal confidence.  `run.py`'s `decide_action` likewise
demotes the top SERVICE_DOWN candidate to the second-ranked one when the
cooldown count reaches 2. -/
theorem C2_amended :
    (∀ (catalog : List CatalogEntry) (history : List (String × ActionHist)) (now : ℤ)
        (recurring explore : Bool) (pick : ℕ) (a : CatalogEntry) (rest : List CatalogEntry),
      (availableActions catalog .SERVICE_DOWN).filter
          (cooldownKeep .SERVICE_DOWN history now) = a :: rest →
      ∃ b, decideAction catalog history none now .SERVICE_DOWN recurring explore pick = some b
        ∧ b ∈ a :: rest ∧ ∀ e ∈ a :: rest, e.confidence ≤ b.confidence)
    ∧ (∀ (catalog : List CatalogEntry) (nf : ℕ) (b b2 : CatalogEntry)
        (rest : List CatalogEntry),
      (sortByConfDesc (catalog.filter (fun e => e.issue == "SERVICE_DOWN" && e.auto))).filter
          (fun e => decide ((0.3 : ℚ) < e.confidence)) = b :: b2 :: rest →
      2 ≤ nf →
      runDecideAction catalog "SERVICE_DOWN" true nf = some b2) := by
  constructor
  · intro catalog history now recurring explore pick a rest hfil
    have hne : (availableActions catalog .SERVICE_DOWN).isEmpty = false := by
      rcases h : availableActions catalog .SERVICE_DOWN with _ | ⟨x, xs⟩
      · rw [h] at hfil
        simp at hfil
      · rfl
    simp only [decideAction, decideActionFresh, hne, Bool.false_eq_true, if_false, hfil]
    rcases rest with _ | ⟨y, ys⟩
    · exact ⟨a, by simp [applyDecisionStrategy], by simp, by simp⟩
    · obtain ⟨m, hm⟩ : ∃ m, pyMaxByConf (a :: y :: ys) = some m := ⟨_, rfl⟩
      obtain ⟨hmem, hbound⟩ := pyMaxByConf_spec _ _ hm
      refine ⟨m, ?_, hmem, hbound⟩
      simp [applyDecisionStrategy, hm]
  · intro catalog nf b b2 rest hfil hnf
    have hne : (sortByConfDesc
        (catalog.filter (fun e => e.issue == "SERVICE_DOWN" && e.auto))).isEmpty = false := by
      rcases h : sortByConfDesc (catalog.filter (fun e => e.issue == "SERVICE_DOWN" && e.auto))
        with _ | ⟨x, xs⟩
      · rw [h] at hfil
        simp at hfil
      · rfl
    simp only [runDecideAction, hne, Bool.false_eq_true, if_false, hfil]
    simp [hnf]

/-- Claim C2 amended, witnessed at concrete inputs: with no cooldown the
single surviving SERVICE_DOWN entry is returned, and `run.py` demotes the
top entry after 2 recent failures. -/
theorem C2_amended_witness :
    (∃ b, decideAction [⟨"SERVICE_DOWN", "restart", true, 0.9⟩] [] none 0
        .SERVICE_DOWN false false 0 = some b
      ∧ b ∈ [(⟨"SERVICE_DOWN", "restart", true, 0.9⟩ : CatalogEntry)]
      ∧ ∀ e ∈ [(⟨"SERVICE_DOWN", "restart", true, 0.9⟩ : CatalogEntry)],
          e.confidence ≤ b.confidence)
    ∧ runDecideAction
        [⟨"SERVICE_DOWN", "restart", true, 0.9⟩, ⟨"SERVICE_DOWN", "scale_up", true, 0.5⟩]
        "SERVICE_DOWN" true 2
        = some ⟨"SERVICE_DOWN", "scale_up", true, 0.5⟩ := by
  constructor
  · exact C2_amended.1 [⟨"SERVICE_DOWN", "restart", true, 0.9⟩] [] 0 false false 0
      ⟨"SERVICE_DOWN", "restart", true, 0.9⟩ []
      (by norm_num [availableActions, sortByConfDesc, insertDesc, IssueType.value,
        List.filter, cooldownKeep, lookupHist])
  · exact C2_amended.2
      [⟨"SERVICE_DOWN", "restart", true, 0.9⟩, ⟨"SERVICE_DOWN", "scale_up", true, 0.5⟩]
      2 ⟨"SERVICE_DOWN", "restart", true, 0.9⟩ ⟨"SERVICE_DOWN", "scale_up", true, 0.5⟩ []
      (by norm_num [sortByConfDesc, insertDesc, List.filter]) (le_refl 2)

/-! ## Incident handling (`SelfHealingAgent._handle_anomaly`,
`_create_incident`, `_update_incident`, agent.py) -/

/-- An `incidents` collection document, restricted to the fields the agent
reads or writes.  `incident_id` is modelled as a fresh counter (the source
derives it from a wall-clock timestamp plus the service id). -/
structure Incident where
  incident_id : ℕ
  service_id : String
  issue : IssueType
  status : String
  action : Option String := none
  success : Option Bool := none
  resolution : Option String := none
  resolved_at : Option ℤ := none
deriving DecidableEq, Repr

/-- The incident store plus the freshness counter for new incident ids. -/
structure AgentState where
  incidents : List Incident
  nextId : ℕ
deriving DecidableEq, Repr

/-- Embedding of `SelfHealingAgent._create_incident` (agent.py 182-204): it
unconditionally inserts a new document with status `"detected"` — there is
no `find_open` lookup for an existing open incident of the pair. -/
def createIncident (st : AgentState) (svc : String) (issue : IssueType) :
    ℕ × AgentState :=
  (st.nextId,
   { incidents := st.incidents ++
       [{ incident_id := st.nextId, service_id := svc, issue := issue,
          status := "detected" }],
     nextId := st.nextId + 1 })

/-- The keyword updates passed to `SelfHealingAgent._update_incident`;
`_handle_anomaly` passes `action`, `success` and `resolution` and never
passes `resolved_at`. -/
structure IncidentUpdates where
  action : Option String := none
  success : Option Bool := none
  resolution : Option String := none
  resolved_at : Option ℤ := none
deriving DecidableEq, Repr

/-- Applying an update dict to one incident document, as
`_update_incident`'s `$set` does: present keys overwrite, and the status
becomes `"resolved"` exactly when a truthy `resolved_at` is among the
updates (agent.py 211-212); otherwise the stored status is untouched. -/
def applyUpdates (inc : Incident) (u : IncidentUpdates) : Incident :=
  { inc with
    action := match u.action with | some a => some a | none => inc.action
    success := match u.success with | some s => some s | none => inc.success
    resolution := match u.resolution with | some r => some r | none => inc.resolution
    resolved_at := match u.resolved_at with | some t => some t | none => inc.resolved_at
    status := match u.resolved_at with | some _ => "resolved" | none => inc.status }

/-- Embedding of `SelfHealingAgent._update_incident` (agent.py 206-221):
`update_one` on the matching `incident_id`. -/
def updateIncident (st : AgentState) (i : ℕ) (u : IncidentUpdates) : AgentState :=
  { st with incidents := st.incidents.map (fun inc =>
      if inc.incident_id == i then applyUpdates inc u else inc) }

/-- Embedding of `SelfHealingAgent._handle_anomaly` (agent.py 129-180),
restricted to its effect on the incident store: a new incident is always
created; when `decide_action` returns an entry with `auto` set, the
executor and evaluator run (their combined verdict is the oracle
`evalSuccess`) and the incident is updated with `action`, `success` and
`resolution` (`"resolved"`/`"failed"`, from `evaluate_action`) — but with
no `resolved_at`, so `_update_incident` never changes the status. -/
def handleAnomaly (st : AgentState) (svc : String) (issue : IssueType)
    (decision : Option CatalogEntry) (evalSuccess : Bool) : AgentState :=
  let created := createIncident st svc issue
  match decision with
  | none => created.2
  | some d =>
      if d.auto then
        updateIncident created.2 created.1
          { action := some d.action, success := some evalSuccess,
            resolution := some (if evalSuccess then "resolved" else "failed") }
      else created.2

/-- Number of stored incidents for `(svc, issue)` whose status is neither
terminal value (`"resolved"` / `"failed"`). -/
def nonTerminalCount (svc : String) (issue : IssueType) (l : List Incident) : ℕ :=
  l.countP (fun inc => inc.service_id == svc && inc.issue == issue
    && !(inc.status == "resolved") && !(inc.status == "failed"))

/-- A `countP` is unchanged under a map that preserves the predicate. -/
lemma countP_map_of_pred_eq {α : Type} (l : List α) (f : α → α) (p : α → Bool)
    (h : ∀ x, p (f x) = p x) : (l.map f).countP p = l.countP p := by
  induction l with
  | nil => rfl
  | cons x xs ih => simp [List.countP_cons, ih, h]

/-- Claim C1 counterexample: handling the same `(service, issue)` anomaly
twice from an empty store (no eligible action either time, so the first
incident is still open) leaves two non-terminal incidents for the pair —
the second detection opened a duplicate instead of attaching. -/
theorem C1_counterexample :
    nonTerminalCount "payment-api" .SERVICE_DOWN
      (handleAnomaly
        (handleAnomaly ⟨[], 0⟩ "payment-api" .SERVICE_DOWN none false)
        "payment-api" .SERVICE_DOWN none false).incidents = 2
    ∧ ¬ (nonTerminalCount "payment-api" .SERVICE_DOWN
      (handleAnomaly
        (handleAnomaly ⟨[], 0⟩ "payment-api" .SERVICE_DOWN none false)
        "payment-api" .SERVICE_DOWN none false).incidents ≤ 1) := by
  constructor <;> decide

/-- Claim C1 (amended): `_handle_anomaly` never consults existing open
incidents — every invocation inserts a fresh incident with status
`"detected"` and the follow-up update (which carries no `resolved_at`)
never changes any status, so each handled anomaly increases the number of
non-terminal incidents for its `(service, issue)` pair by exactly one,
even when one is already open. -/
theorem C1_amended (st : AgentState) (svc : String) (issue : IssueType)
    (decision : Option CatalogEntry) (ev : Bool) :
    nonTerminalCount svc issue (handleAnomaly st svc issue decision ev).incidents
      = nonTerminalCount svc issue st.incidents + 1 := by
  have hnew : ∀ st' : AgentState,
      nonTerminalCount svc issue (createIncident st' svc issue).2.incidents
        = nonTerminalCount svc issue st'.incidents + 1 := by
    intro st'
    unfold createIncident nonTerminalCount
    rw [List.countP_append]
    simp
  unfold handleAnomaly
  rcases decision with _ | d
  · exact hnew st
  · by_cases ha : d.auto = true
    · simp only [ha, if_true]
      have hpres : ∀ inc : Incident,
          (fun inc : Incident => inc.service_id == svc && inc.issue == issue
            && !(inc.status == "resolved") && !(inc.status == "failed"))
            (if inc.incident_id == (createIncident st svc issue).1
              then applyUpdates inc
                { action := some d.action, success := some ev,
                  resolution := some (if ev then "resolved" else "failed") }
              else inc)
          = (fun inc : Incident => inc.service_id == svc && inc.issue == issue
            && !(inc.status == "resolved") && !(inc.status == "failed")) inc := by
        intro inc
        by_cases hid : (inc.incident_id == (createIncident st svc issue).1) = true
        · simp [hid, applyUpdates]
        · simp [hid]
      calc nonTerminalCount svc issue
            (updateIncident (createIncident st svc issue).2 (createIncident st svc issue).1
              { action := some d.action, success := some ev,
                resolution := some (if ev then "resolved" else "failed") }).incidents
          = nonTerminalCount svc issue (createIncident st svc issue).2.incidents := by
            unfold updateIncident nonTerminalCount
            exact countP_map_of_pred_eq _ _ _ hpres
        _ = nonTerminalCount svc issue st.incidents + 1 := hnew st
    · simp only [Bool.not_eq_true] at ha
      simp only [ha, Bool.false_eq_true, if_false]
      exact hnew st

/-- Claim C3 counterexample: an anomaly for which the decision engine
yields no eligible action leaves its incident with final status
`"detected"`, not `"failed"` — no DETECTED→FAILED transition is recorded. -/
theorem C3_counterexample :
    (handleAnomaly ⟨[], 0⟩ "payment-api" .HIGH_CPU none false).incidents.map
        Incident.status = ["detected"]
    ∧ (handleAnomaly ⟨[], 0⟩ "payment-api" .HIGH_CPU none false).incidents.countP
        (fun inc => inc.status == "failed") = 0 := by
  constructor <;> decide

/-- Claim C3 (amended): when `decide_action` yields no action,
`_handle_anomaly` performs no further update at all — the newly created
incident keeps status `"detected"` (a non-terminal state) and the number of
`"failed"` incidents is unchanged, so an alert-only issue is left
permanently open in DETECTED rather than transitioned to FAILED. -/
theorem C3_amended (st : AgentState) (svc : String) (issue : IssueType) (ev : Bool) :
    (∃ inc, inc ∈ (handleAnomaly st svc issue none ev).incidents
      ∧ inc.incident_id = st.nextId ∧ inc.status = "detected")
    ∧ (handleAnomaly st svc issue none ev).incidents.countP
        (fun inc => inc.status == "failed")
      = st.incidents.countP (fun inc => inc.status == "failed") := by
  constructor
  · refine ⟨⟨st.nextId, svc, issue, "detected", none, none, none, none⟩, ?_, rfl, rfl⟩
    unfold handleAnomaly createIncident
    simp
  · unfold handleAnomaly createIncident
    rw [List.countP_append]
    simp

/-! ## AnomalyDetector (`ServiceMonitor.detect_anomalies`, monitor.py, and
`detect_anomaly`, run.py) -/

/-- A `ServiceMetrics` value as consumed by `detect_anomalies`: `health` is
required (pydantic), the numeric fields optional. -/
structure SMetrics where
  health : HealthStatus
  memory : Option ℚ := none
  cpu : Option ℚ := none
  latency : Option ℚ := none
  error_rate : Option ℚ := none
  response_time : Option ℚ := none
  throughput : Option ℚ := none
deriving DecidableEq, Repr

/-- The global `config.THRESHOLDS` map (settings.py). -/
structure Thresholds where
  memory : ℚ
  latency : ℚ
  error_rate : ℚ
  cpu : ℚ
  response_time : ℚ
deriving DecidableEq, Repr

/-- Numeric metric fields reachable by `getattr(metrics, name)` in the
custom-threshold loop (non-numeric attributes would make the Python `>`
raise, caught further up; they are outside this model). -/
inductive MetricField where
  | memory
  | cpu
  | latency
  | error_rate
  | response_time
  | throughput
deriving DecidableEq, Repr

/-- `getattr(metrics, metric_name, None)` for the numeric fields. -/
def SMetrics.getattr (m : SMetrics) : MetricField → Option ℚ
  | .memory => m.memory
  | .cpu => m.cpu
  | .latency => m.latency
  | .error_rate => m.error_rate
  | .response_time => m.response_time
  | .throughput => m.throughput

/-- A stored `metrics_history` document as read back by the trend check:
only `memory` and `error_rate` are consulted (`m.get(key, 0)`). -/
structure HistEntry where
  memory : Option ℚ := none
  error_rate : Option ℚ := none
deriving DecidableEq, Repr

/-- The last-5 memory sample list `[m.get("memory", 0) for m in
historical_data[-5:]]` of `_detect_trend_anomalies`. -/
def memWindow (hist : List HistEntry) : List ℚ :=
  (hist.drop (hist.length - 5)).map (fun h => h.memory.getD 0)

/-- The last-5 error-rate sample list `[m.get("error_rate", 0) for m in
historical_data[-5:]]` of `_detect_trend_anomalies`. -/
def errWindow (hist : List HistEntry) : List ℚ :=
  (hist.drop (hist.length - 5)).map (fun h => h.error_rate.getD 0)

/-- Embedding of `ServiceMonitor._detect_trend_anomalies`
(monitor.py 123-150): `hist` is the time-ordered 15-minute window of stored
metrics documents; fewer than 5 data points yield nothing, otherwise the
last-5 increase checks run for memory (> 20) and error rate (> 0.1). -/
def detectTrendAnomalies (m : SMetrics) (hist : List HistEntry) : List IssueType :=
  if hist.length < 5 then []
  else
    (if truthyQ m.memory then
      if 3 ≤ (memWindow hist).length
          ∧ 20 < (memWindow hist).getLastD 0 - (memWindow hist).headD 0 then
        [IssueType.MEMORY_PRESSURE]
      else []
    else [])
    ++
    (if truthyQ m.error_rate then
      if 3 ≤ (errWindow hist).length
          ∧ (0.1 : ℚ) < (errWindow hist).getLastD 0 - (errWindow hist).headD 0 then
        [IssueType.HIGH_ERROR_RATE]
      else []
    else [])

/-- Embedding of `ServiceMonitor.detect_anomalies` (monitor.py 89-121): the
independent checks append to one list, in source order — health, memory,
latency, cpu, error rate, per-service custom thresholds, trend checks. -/
def detectAnomalies (m : SMetrics) (th : Thresholds)
    (customThresholds : List (MetricField × ℚ)) (hist : List HistEntry) :
    List IssueType :=
  (if m.health == HealthStatus.DOWN then [IssueType.SERVICE_DOWN] else [])
  ++ (if truthyQ m.memory && decide (th.memory < m.memory.getD 0) then
        [IssueType.MEMORY_PRESSURE] else [])
  ++ (if truthyQ m.latency && decide (th.latency < m.latency.getD 0) then
        [IssueType.HIGH_LATENCY] else [])
  ++ (if truthyQ m.cpu && decide (th.cpu < m.cpu.getD 0) then
        [IssueType.HIGH_CPU] else [])
  ++ (if truthyQ m.error_rate && decide (th.error_rate < m.error_rate.getD 0) then
        [IssueType.HIGH_ERROR_RATE] else [])
  ++ customThresholds.filterMap (fun p =>
       match m.getattr p.1 with
       | some v => if p.2 < v then some IssueType.CUSTOM else none
       | none => none)
  ++ detectTrendAnomalies m hist

/-- Embedding of `detect_anomaly` (`run.py` 233-253) with the hardcoded
`CONFIG` thresholds (memory 90, latency 1500, cpu 90, error rate 0.3): a
falsy metrics dict is `SERVICE_DOWN`, otherwise the first matching check
wins and at most one issue string is returned. -/
def runDetectAnomaly : Option PyMetrics → Option String
  | none => some "SERVICE_DOWN"
  | some m =>
      if m.health == some "DOWN" then some "SERVICE_DOWN"
      else if decide ((90 : ℚ) < m.memory.getD 0) then some "MEMORY_PRESSURE"
      else if decide ((1500 : ℚ) < m.latency.getD 0) then some "HIGH_LATENCY"
      else if decide ((90 : ℚ) < m.cpu.getD 0) then some "HIGH_CPU"
      else if decide ((0.3 : ℚ) < m.error_rate.getD 0) then some "HIGH_ERROR_RATE"
      else none

/-- Claim C8 counterexample, both cited code paths.  Monitor path: memory 95
over a 90 threshold plus a rising five-sample history make MEMORY_PRESSURE
appear twice in one result, so an issue type can appear more than once.
`run.py` path: a DOWN service with cpu 95 over the hardcoded 90 threshold
yields only SERVICE_DOWN — the result is truncated to a single issue and
the cpu check is suppressed. -/
theorem C8_counterexample :
    (detectAnomalies ⟨.UP, some 95, none, none, none, none, none⟩
        ⟨90, 1500, 0.3, 90, 2000⟩ []
        [⟨some 50, none⟩, ⟨some 60, none⟩, ⟨some 70, none⟩,
         ⟨some 80, none⟩, ⟨some 95, none⟩]).count IssueType.MEMORY_PRESSURE = 2
    ∧ runDetectAnomaly
        (some { health := some "DOWN", cpu := some 95 }) = some "SERVICE_DOWN"
    ∧ ((90 : ℚ) < 95) := by
  refine ⟨?_, ?_, by norm_num⟩
  · norm_num [detectAnomalies, detectTrendAnomalies, memWindow, errWindow, truthyQ,
      SMetrics.getattr, List.count, List.countP, List.countP.go, List.getLastD,
      List.getLast, List.headD]
  · norm_num [runDetectAnomaly]

/-- Membership in a conditional singleton list. -/
lemma mem_ite_singleton {x y : IssueType} {c : Prop} [Decidable c] :
    (x ∈ (if c then [y] else [])) ↔ (c ∧ x = y) := by
  split <;> simp_all

/-- The memory trend condition of `_detect_trend_anomalies` (with the
enclosing 5-sample minimum). -/
def memTrendHolds (m : SMetrics) (hist : List HistEntry) : Prop :=
  ¬ hist.length < 5 ∧ truthyQ m.memory = true
    ∧ 3 ≤ (memWindow hist).length
    ∧ 20 < (memWindow hist).getLastD 0 - (memWindow hist).headD 0

/-- The error-rate trend condition of `_detect_trend_anomalies` (with the
enclosing 5-sample minimum). -/
def errTrendHolds (m : SMetrics) (hist : List HistEntry) : Prop :=
  ¬ hist.length < 5 ∧ truthyQ m.error_rate = true
    ∧ 3 ≤ (errWindow hist).length
    ∧ (0.1 : ℚ) < (errWindow hist).getLastD 0 - (errWindow hist).headD 0

/-- Characterization of trend-check membership. -/
lemma mem_detectTrendAnomalies (m : SMetrics) (hist : List HistEntry) (x : IssueType) :
    x ∈ detectTrendAnomalies m hist ↔
      ((x = IssueType.MEMORY_PRESSURE ∧ memTrendHolds m hist)
        ∨ (x = IssueType.HIGH_ERROR_RATE ∧ errTrendHolds m hist)) := by
  unfold detectTrendAnomalies memTrendHolds errTrendHolds
  by_cases h5 : hist.length < 5
  · simp [h5]
  · rw [if_neg h5]
    simp only [List.mem_append]
    constructor
    · rintro (h | h)
      · left
        by_cases ht : truthyQ m.memory = true
        · rw [if_pos ht, mem_ite_singleton] at h
          exact ⟨h.2, h5, ht, h.1.1, h.1.2⟩
        · rw [if_neg ht] at h
          simp at h
      · right
        by_cases ht : truthyQ m.error_rate = true
        · rw [if_pos ht, mem_ite_singleton] at h
          exact ⟨h.2, h5, ht, h.1.1, h.1.2⟩
        · rw [if_neg ht] at h
          simp at h
    · rintro (⟨rfl, _, ht, hlen, hgt⟩ | ⟨rfl, _, ht, hlen, hgt⟩)
      · left
        rw [if_pos ht, if_pos ⟨hlen, hgt⟩]
        simp
      · right
        rw [if_pos ht, if_pos ⟨hlen, hgt⟩]
        simp

/-- Characterization of custom-threshold membership. -/
lemma mem_customIssues (m : SMetrics) (cth : List (MetricField × ℚ)) (x : IssueType) :
    (x ∈ cth.filterMap (fun p =>
       match m.getattr p.1 with
       | some v => if p.2 < v then some IssueType.CUSTOM else none
       | none => none))
    ↔ (x = IssueType.CUSTOM ∧ ∃ p ∈ cth, ∃ v, m.getattr p.1 = some v ∧ p.2 < v) := by
  simp only [List.mem_filterMap]
  constructor
  · rintro ⟨p, hp, h⟩
    rcases hx : m.getattr p.1 with _ | v <;> rw [hx] at h
    · simp at h
    · rw [show (match some v with
          | some w => if p.2 < w then some IssueType.CUSTOM else none
          | none => none)
          = if p.2 < v then some IssueType.CUSTOM else none from rfl] at h
      by_cases hlt : p.2 < v
      · rw [if_pos hlt] at h
        exact ⟨(Option.some_inj.mp h).symm, p, hp, v, hx, hlt⟩
      · rw [if_neg hlt] at h
        simp at h
  · rintro ⟨rfl, p, hp, v, hv, hlt⟩
    refine ⟨p, hp, ?_⟩
    rw [hv]
    simp only [if_pos hlt]

/-- Claim C8 (amended): `ServiceMonitor.detect_anomalies` contains an issue
type exactly when that issue's own independent condition (absolute
threshold, custom threshold, or trend) holds — no check suppresses another
and the result is not truncated — but it is a list, not a set:
MEMORY_PRESSURE and HIGH_ERROR_RATE can occur twice when both the absolute
and the trend check fire.  The separate `run.py` `detect_anomaly` returns a
single issue in fixed priority order; in particular health DOWN always
yields exactly SERVICE_DOWN there, suppressing every other check. -/
theorem C8_amended (m : SMetrics) (th : Thresholds)
    (cth : List (MetricField × ℚ)) (hist : List HistEntry) :
    (IssueType.SERVICE_DOWN ∈ detectAnomalies m th cth hist ↔ m.health = .DOWN)
    ∧ (IssueType.HIGH_LATENCY ∈ detectAnomalies m th cth hist ↔
        (truthyQ m.latency = true ∧ th.latency < m.latency.getD 0))
    ∧ (IssueType.HIGH_CPU ∈ detectAnomalies m th cth hist ↔
        (truthyQ m.cpu = true ∧ th.cpu < m.cpu.getD 0))
    ∧ (IssueType.MEMORY_PRESSURE ∈ detectAnomalies m th cth hist ↔
        ((truthyQ m.memory = true ∧ th.memory < m.memory.getD 0)
          ∨ memTrendHolds m hist))
    ∧ (IssueType.HIGH_ERROR_RATE ∈ detectAnomalies m th cth hist ↔
        ((truthyQ m.error_rate = true ∧ th.error_rate < m.error_rate.getD 0)
          ∨ errTrendHolds m hist))
    ∧ (IssueType.CUSTOM ∈ detectAnomalies m th cth hist ↔
        ∃ p ∈ cth, ∃ v, m.getattr p.1 = some v ∧ p.2 < v)
    ∧ (∀ pm : PyMetrics, pm.health = some "DOWN" →
        runDetectAnomaly (some pm) = some "SERVICE_DOWN") := by
  have hexp : ∀ x : IssueType, x ∈ detectAnomalies m th cth hist ↔
      ((((m.health == HealthStatus.DOWN) = true ∧ x = IssueType.SERVICE_DOWN)
        ∨ ((truthyQ m.memory && decide (th.memory < m.memory.getD 0)) = true
            ∧ x = IssueType.MEMORY_PRESSURE)
        ∨ ((truthyQ m.latency && decide (th.latency < m.latency.getD 0)) = true
            ∧ x = IssueType.HIGH_LATENCY)
        ∨ ((truthyQ m.cpu && decide (th.cpu < m.cpu.getD 0)) = true
            ∧ x = IssueType.HIGH_CPU)
        ∨ ((truthyQ m.error_rate && decide (th.error_rate < m.error_rate.getD 0)) = true
            ∧ x = IssueType.HIGH_ERROR_RATE)
        ∨ (x = IssueType.CUSTOM ∧ ∃ p ∈ cth, ∃ v, m.getattr p.1 = some v ∧ p.2 < v)
        ∨ ((x = IssueType.MEMORY_PRESSURE ∧ memTrendHolds m hist)
            ∨ (x = IssueType.HIGH_ERROR_RATE ∧ errTrendHolds m hist)))) := by
    intro x
    unfold detectAnomalies
    simp only [List.mem_append, mem_ite_singleton, mem_customIssues,
      mem_detectTrendAnomalies, or_assoc]
  refine ⟨?_, ?_, ?_, ?_, ?_, ?_, ?_⟩
  · rw [hexp]
    simp [Bool.and_eq_true, decide_eq_true_eq]
  · rw [hexp]
    simp [Bool.and_eq_true, decide_eq_true_eq]
  · rw [hexp]
    simp [Bool.and_eq_true, decide_eq_true_eq]
  · rw [hexp]
    simp [Bool.and_eq_true, decide_eq_true_eq]
  · rw [hexp]
    simp [Bool.and_eq_true, decide_eq_true_eq]
  · rw [hexp]
    simp [Bool.and_eq_true, decide_eq_true_eq]
  · intro pm h
    simp [runDetectAnomaly, h]

/-- Claim C8 amended, witnessed at a concrete input: `run.py`'s detector on
a DOWN service returns only SERVICE_DOWN. -/
theorem C8_amended_witness :
    runDetectAnomaly (some { health := some "DOWN", cpu := some 95 })
      = some "SERVICE_DOWN" :=
  (C8_amended ⟨.UP, none, none, none, none, none, none⟩
      ⟨90, 1500, 0.3, 90, 2000⟩ [] []).2.2.2.2.2.2
    { health := some "DOWN", cpu := some 95 } rfl
/-! ## ActionExecutor (`action_executor.py`) -/

/-- The `result` dict built by `ActionExecutor.execute`: base value
`success=False`, `error=None`; `execution_time` is the wall time written in
the `finally` block (an input of the model). -/
structure PyExecResult where
  action : String
  success : Bool
  error : Option String
  execution_time : ℚ
deriving DecidableEq, Repr

/-- The dict returned by an `_execute_*` handler (or a custom-action
branch); its keys overwrite the base result via `result.update`.  Handlers
that do not set `error` leave it `none`. -/
structure HandlerResult where
  success : Bool
  error : Option String := none
deriving DecidableEq, Repr

/-- Action names for which `getattr(self, "_execute_" + action)` finds a
handler with the matching `(service, parameters)` signature. -/
def directActions : List String :=
  ["restart", "scale_up", "clear_cache", "rollback", "notify"]

/-- Action names for which `getattr` finds a class method whose signature
does not match the two-argument call, so Python raises `TypeError` inside
the `try` block of `execute` (`_execute_custom`, `_execute_http_action`,
`_execute_script_action`). -/
def collidingActions : List String := ["custom", "http_action", "script_action"]

/-- A registered custom action: its declared strategy `type` (the dict's
`"type"` key, default `"http"` already applied) and the oracle outcome of
running that strategy; `Except.error` models an exception escaping the
strategy call. -/
structure CustomAction where
  ctype : String
  run : Except String HandlerResult

/-- Embedding of `ActionExecutor._execute_custom` (action_executor.py
207-241).  An unregistered name yields the structured not-found failure
(the Python message interpolates the name); a registered one dispatches on
its type inside a `try` whose `except` converts any exception into a
structured failure.  Note `_execute_command_action` does not exist in the
source, so a `"command"`-typed action raises `AttributeError` there, which
the same `except` catches. -/
def executeCustom (registry : List (String × CustomAction)) (act : String) :
    HandlerResult :=
  match (registry.find? (fun p => p.1 == act)).map Prod.snd with
  | none => { success := false, error := some ("Custom action not found: " ++ act) }
  | some c =>
      let body : Except String HandlerResult :=
        if c.ctype == "http" || c.ctype == "script" then c.run
        else if c.ctype == "command" then Except.error "AttributeError"
        else Except.ok { success := false,
                         error := some ("Unknown action type: " ++ c.ctype) }
      match body with
      | Except.ok r => r
      | Except.error e =>
          { success := false, error := some ("Custom action error: " ++ e) }

/-- Embedding of `ActionExecutor.execute` (action_executor.py 19-45) in an
exception monad: `env a` is the outcome of the handler call
`_execute_a(service, parameters)` for a direct action name (`Except.error`
models an exception escaping it).  `execute`'s own `try/except Exception`
converts any such exception into the structured failure with `error` set to
`str(e)` and `success` still `False`; the result type `Except.ok` witnesses
that no exception escapes `execute` itself. -/
def executeE (env : String → Except String HandlerResult)
    (registry : List (String × CustomAction)) (act : String) (elapsed : ℚ) :
    Except String PyExecResult :=
  match (if act ∈ directActions then env act
         else if act ∈ collidingActions then Except.error "TypeError"
         else Except.ok (executeCustom registry act) : Except String HandlerResult) with
  | Except.ok h =>
      Except.ok { action := act, success := h.success, error := h.error,
                  execution_time := elapsed }
  | Except.error e =>
      Except.ok { action := act, success := false, error := some e,
                  execution_time := elapsed }

/-- Claim C9: for every action name, handler behaviour and registry,
`ActionExecutor.execute` returns a structured result (never an exception:
the returned `Except` is always `ok`, whatever exceptions the underlying
handlers raise), the result's `action` field names the action, and an
unknown, unregistered action name yields `success = false` with a
non-empty error message. -/
theorem C9_execute_structured :
    (∀ (env : String → Except String HandlerResult)
        (registry : List (String × CustomAction)) (act : String) (elapsed : ℚ),
      ∃ r : PyExecResult, executeE env registry act elapsed = Except.ok r
        ∧ r.action = act ∧ r.execution_time = elapsed)
    ∧ (∀ (env : String → Except String HandlerResult)
        (registry : List (String × CustomAction)) (act : String) (elapsed : ℚ),
      act ∉ directActions → act ∉ collidingActions →
      registry.find? (fun p => p.1 == act) = none →
      ∃ r : PyExecResult, executeE env registry act elapsed = Except.ok r
        ∧ r.success = false
        ∧ r.error = some ("Custom action not found: " ++ act)
        ∧ ("Custom action not found: " ++ act).length ≠ 0) := by
  constructor
  · intro env registry act elapsed
    unfold executeE
    by_cases hd : act ∈ directActions
    · rw [if_pos hd]
      rcases env act with e | h
      · exact ⟨_, rfl, rfl, rfl⟩
      · exact ⟨_, rfl, rfl, rfl⟩
    · rw [if_neg hd]
      by_cases hc : act ∈ collidingActions
      · rw [if_pos hc]
        exact ⟨_, rfl, rfl, rfl⟩
      · rw [if_neg hc]
        exact ⟨_, rfl, rfl, rfl⟩
  · intro env registry act elapsed hd hc hreg
    unfold executeE executeCustom
    rw [if_neg hd, if_neg hc, hreg]
    refine ⟨_, rfl, rfl, rfl, ?_⟩
    rw [String.length_append]
    have h25 : ("Custom action not found: ").length = 25 := rfl
    omega

/-- Claim C9, witnessed at a concrete input: the unknown action name
`"jump"` with an empty registry and a handler environment that always
raises still produces a structured not-found failure. -/
theorem C9_execute_structured_witness :
    ∃ r : PyExecResult,
      executeE (fun _ => Except.error "boom") [] "jump" 0 = Except.ok r
        ∧ r.success = false
        ∧ r.error = some ("Custom action not found: " ++ "jump")
        ∧ ("Custom action not found: " ++ "jump").length ≠ 0 :=
  C9_execute_structured.2 (fun _ => Except.error "boom") [] "jump" 0
    (by decide) (by decide) rfl

end SelfHealing
